import Mathlib

/-!
Verification of the TP-Link Tapo Cloud polling coordinator
(`tplink_tapo_cloud/tapo_coordinator.py`, `sensor.py`, `const.py`).

The Python code is shallowly embedded: Python values that flow through the
coordinator are an inductive `PyVal`, Python exceptions are `PyErr`, the
coordinator's data dict is an insertion-ordered association list, and the
polling cycle `_async_update_data` (together with the snapshot replacement
performed by the scheduling base class) is the function `runCycle`, which
also records the trace of device operations attempted during the cycle.
Floats are modelled as exact rationals (the only float operation in the
code is division by 1000).
-/

/-- Error kinds a Python exception carries in this embedding.  `timeoutError`
stands for the whole-cycle `async_timeout` expiry, `communicationError` and
`sessionError` for errors raised by the PyP100/PyP110 device library,
`keyError` / `typeError` / `valueError` for the builtin exceptions that
subscription, `json.loads`, `b64decode` and `bytes.decode` raise. -/
inductive PyErr where
  | keyError
  | typeError
  | valueError
  | sessionError
  | communicationError
  | timeoutError
deriving DecidableEq, Repr

/-- Python values that flow through the coordinator: `None`, booleans,
integers, floats (modelled as exact rationals), strings, byte strings,
lists and (insertion-ordered, unique-key) dicts. -/
inductive PyVal where
  | none
  | bool (b : Bool)
  | int (n : Int)
  | float (q : ℚ)
  | str (s : String)
  | bytes (bs : List Nat)
  | list (xs : List PyVal)
  | dict (fields : List (String × PyVal))

/-- Lookup in an association list modelling a Python dict (`d[k]` succeeds
iff the key is present; keys are unique by construction). -/
def lookupD (k : String) : List (String × PyVal) → Option PyVal
  | [] => Option.none
  | (k', v) :: rest => if k' = k then some v else lookupD k rest

/-- Python subscription `v[k]` with a string key: returns the entry of a
dict, raises `KeyError` when the key is missing and `TypeError` when `v`
is not a dict (as `str`/`int`/`None` subscription by a string does). -/
def pyIndex (v : PyVal) (k : String) : Except PyErr PyVal :=
  match v with
  | .dict fs =>
    match lookupD k fs with
    | some w => .ok w
    | Option.none => .error .keyError
  | _ => .error .typeError

/-- Value of one character of the standard base64 alphabet. -/
def b64CharVal (c : Char) : Option Nat :=
  if 'A' ≤ c ∧ c ≤ 'Z' then some (c.toNat - 'A'.toNat)
  else if 'a' ≤ c ∧ c ≤ 'z' then some (c.toNat - 'a'.toNat + 26)
  else if '0' ≤ c ∧ c ≤ '9' then some (c.toNat - '0'.toNat + 52)
  else if c = '+' then some 62
  else if c = '/' then some 63
  else Option.none

/-- Decode base64 text four characters at a time; the final quadruple may
end in one or two padding characters.  Any other shape fails, as
`base64.b64decode` raises `binascii.Error` on incorrectly padded input. -/
def b64DecodeChars : List Char → Option (List Nat)
  | [] => some []
  | c1 :: c2 :: c3 :: c4 :: rest =>
    match b64CharVal c1, b64CharVal c2 with
    | some v1, some v2 =>
      if c3 = '=' ∧ c4 = '=' ∧ rest = [] then
        some [v1 * 4 + v2 / 16]
      else if c4 = '=' ∧ rest = [] then
        match b64CharVal c3 with
        | some v3 => some [v1 * 4 + v2 / 16, (v2 % 16) * 16 + v3 / 4]
        | Option.none => Option.none
      else
        match b64CharVal c3, b64CharVal c4, b64DecodeChars rest with
        | some v3, some v4, some tail =>
          some ([v1 * 4 + v2 / 16, (v2 % 16) * 16 + v3 / 4,
                 (v3 % 4) * 64 + v4] ++ tail)
        | _, _, _ => Option.none
    | _, _ => Option.none
  | _ => Option.none

/-- `base64.b64decode` applied to a str argument, as the coordinator does
at `tapo_coordinator.py:89`; raises (`binascii.Error`, modelled as
`valueError`) on malformed input and `TypeError` on a non-str argument. -/
def b64decode (v : PyVal) : Except PyErr (List Nat) :=
  match v with
  | .str s =>
    match b64DecodeChars s.data with
    | some bs => .ok bs
    | Option.none => .error .valueError
  | _ => .error .typeError

/-- Decode a UTF-8 byte sequence to code points, validating continuation
bytes, rejecting overlong encodings, surrogates and out-of-range values,
as `bytes.decode("utf-8")` does (raising `UnicodeDecodeError`). -/
def utf8DecodeAux : List Nat → Option (List Char)
  | [] => some []
  | b :: rest =>
    if b < 0x80 then
      match utf8DecodeAux rest with
      | some cs => some (Char.ofNat b :: cs)
      | Option.none => Option.none
    else if b < 0xC2 then Option.none
    else if b < 0xE0 then
      match rest with
      | b2 :: rest2 =>
        if 0x80 ≤ b2 ∧ b2 < 0xC0 then
          match utf8DecodeAux rest2 with
          | some cs => some (Char.ofNat ((b - 0xC0) * 64 + (b2 - 0x80)) :: cs)
          | Option.none => Option.none
        else Option.none
      | [] => Option.none
    else if b < 0xF0 then
      match rest with
      | b2 :: b3 :: rest3 =>
        if 0x80 ≤ b2 ∧ b2 < 0xC0 ∧ 0x80 ≤ b3 ∧ b3 < 0xC0 then
          let cp := (b - 0xE0) * 4096 + (b2 - 0x80) * 64 + (b3 - 0x80)
          if 0x800 ≤ cp ∧ ¬ (0xD800 ≤ cp ∧ cp ≤ 0xDFFF) then
            match utf8DecodeAux rest3 with
            | some cs => some (Char.ofNat cp :: cs)
            | Option.none => Option.none
          else Option.none
        else Option.none
      | _ => Option.none
    else if b < 0xF5 then
      match rest with
      | b2 :: b3 :: b4 :: rest4 =>
        if 0x80 ≤ b2 ∧ b2 < 0xC0 ∧ 0x80 ≤ b3 ∧ b3 < 0xC0 ∧
           0x80 ≤ b4 ∧ b4 < 0xC0 then
          let cp := (b - 0xF0) * 262144 + (b2 - 0x80) * 4096 +
                    (b3 - 0x80) * 64 + (b4 - 0x80)
          if 0x10000 ≤ cp ∧ cp ≤ 0x10FFFF then
            match utf8DecodeAux rest4 with
            | some cs => some (Char.ofNat cp :: cs)
            | Option.none => Option.none
          else Option.none
        else Option.none
      | _ => Option.none
    else Option.none

/-- `bytes.decode("utf-8")` as the coordinator applies it at
`tapo_coordinator.py:90`. -/
def utf8Decode (bs : List Nat) : Except PyErr String :=
  match utf8DecodeAux bs with
  | some cs => .ok (String.mk cs)
  | Option.none => .error .valueError

example : b64decode (.str "UGx1Zw==") = .ok [0x50, 0x6C, 0x75, 0x67] := rfl

example : utf8Decode [0x50, 0x6C, 0x75, 0x67] = .ok "Plug" := rfl

/-- Skip JSON whitespace. -/
def jsonSkipWs : List Char → List Char
  | [] => []
  | c :: rest =>
    if c = ' ' ∨ c = '\t' ∨ c = '\n' ∨ c = '\r' then jsonSkipWs rest
    else c :: rest

/-- Read the body of a JSON string up to the closing quote.  Escape
sequences are not modelled (they do not occur in the device payloads);
an input using them simply fails to parse. -/
def jsonReadString : List Char → Option (List Char × List Char)
  | [] => Option.none
  | c :: rest =>
    if c = '"' then some ([], rest)
    else if c = '\\' then Option.none
    else
      match jsonReadString rest with
      | some (cs, r) => some (c :: cs, r)
      | Option.none => Option.none

/-- Split off the leading run of decimal digits. -/
def jsonTakeDigits : List Char → List Char × List Char
  | [] => ([], [])
  | c :: rest =>
    if '0' ≤ c ∧ c ≤ '9' then
      let (ds, r) := jsonTakeDigits rest
      (c :: ds, r)
    else ([], c :: rest)

/-- Numeric value of a digit string. -/
def jsonDigitsToNat (ds : List Char) : Nat :=
  ds.foldl (fun a c => a * 10 + (c.toNat - '0'.toNat)) 0

mutual

/-- Fuel-bounded recursive-descent parser for one JSON value (objects,
arrays, strings, integers, `true`/`false`/`null`; fractional numbers are
not modelled as the device payloads carry integers only).  Returns the
parsed value and the unconsumed input. -/
def jsonParseVal : Nat → List Char → Option (PyVal × List Char)
  | 0, _ => Option.none
  | fuel + 1, cs =>
    match jsonSkipWs cs with
    | [] => Option.none
    | c :: rest =>
      if c = '"' then
        match jsonReadString rest with
        | some (body, r) => some (.str (String.mk body), r)
        | Option.none => Option.none
      else if c = '\x7b' then jsonParseObj fuel rest
      else if c = '[' then jsonParseArr fuel rest
      else if c = '-' then
        match jsonTakeDigits rest with
        | ([], _) => Option.none
        | (ds, r) => some (.int (- (jsonDigitsToNat ds : Int)), r)
      else if '0' ≤ c ∧ c ≤ '9' then
        let (ds, r) := jsonTakeDigits (c :: rest)
        some (.int (jsonDigitsToNat ds : Int), r)
      else
        match c :: rest with
        | 't' :: 'r' :: 'u' :: 'e' :: r => some (.bool true, r)
        | 'f' :: 'a' :: 'l' :: 's' :: 'e' :: r => some (.bool false, r)
        | 'n' :: 'u' :: 'l' :: 'l' :: r => some (.none, r)
        | _ => Option.none

/-- Parse the members of a JSON object, the opening brace already
consumed. -/
def jsonParseObj : Nat → List Char → Option (PyVal × List Char)
  | 0, _ => Option.none
  | fuel + 1, cs =>
    match jsonSkipWs cs with
    | c :: rest =>
      if c = '\x7d' then some (.dict [], rest)
      else
        match jsonParseObjItems fuel (c :: rest) with
        | some (fs, r) => some (.dict fs, r)
        | Option.none => Option.none
    | [] => Option.none

/-- Parse one or more comma-separated `"key": value` members, then the
closing brace. -/
def jsonParseObjItems : Nat → List Char → Option (List (String × PyVal) × List Char)
  | 0, _ => Option.none
  | fuel + 1, cs =>
    match jsonSkipWs cs with
    | '"' :: rest =>
      match jsonReadString rest with
      | some (key, r) =>
        match jsonSkipWs r with
        | ':' :: r2 =>
          match jsonParseVal fuel r2 with
          | some (v, r3) =>
            match jsonSkipWs r3 with
            | ',' :: r4 =>
              match jsonParseObjItems fuel r4 with
              | some (fs, r5) => some ((String.mk key, v) :: fs, r5)
              | Option.none => Option.none
            | c :: r4 =>
              if c = '\x7d' then some ([(String.mk key, v)], r4)
              else Option.none
            | [] => Option.none
          | Option.none => Option.none
        | _ => Option.none
      | Option.none => Option.none
    | _ => Option.none

/-- Parse the elements of a JSON array, the opening bracket already
consumed. -/
def jsonParseArr : Nat → List Char → Option (PyVal × List Char)
  | 0, _ => Option.none
  | fuel + 1, cs =>
    match jsonSkipWs cs with
    | c :: rest =>
      if c = ']' then some (.list [], rest)
      else
        match jsonParseArrItems fuel (c :: rest) with
        | some (xs, r) => some (.list xs, r)
        | Option.none => Option.none
    | [] => Option.none

/-- Parse one or more comma-separated array elements, then the closing
bracket. -/
def jsonParseArrItems : Nat → List Char → Option (List PyVal × List Char)
  | 0, _ => Option.none
  | fuel + 1, cs =>
    match jsonParseVal fuel cs with
    | some (v, r) =>
      match jsonSkipWs r with
      | ',' :: r2 =>
        match jsonParseArrItems fuel r2 with
        | some (xs, r3) => some (v :: xs, r3)
        | Option.none => Option.none
      | ']' :: r2 => some ([v], r2)
      | _ => Option.none
    | Option.none => Option.none

end

/-- `json.loads` as applied to the energy-usage payload at
`tapo_coordinator.py:102`: parses JSON text, raising (`json.JSONDecodeError`,
modelled as `valueError`) on malformed text and `TypeError` on an argument
that is not text — in particular on an already-parsed dict.  The bytes
acceptance of `json.loads` is not modelled; the device library hands the
coordinator a str. -/
def jsonLoads (v : PyVal) : Except PyErr PyVal :=
  match v with
  | .str s =>
    match jsonParseVal (3 * s.length + 3) s.data with
    | some (j, r) =>
      if jsonSkipWs r = [] then .ok j else .error .valueError
    | Option.none => .error .valueError
  | _ => .error .typeError

example :
    jsonLoads (.str "\x7b\"result\": \x7b\"today_energy\": 120, \"current_power\": 2500\x7d, \"error_code\": 0\x7d") =
      .ok (.dict [("result", .dict [("today_energy", .int 120),
        ("current_power", .int 2500)]), ("error_code", .int 0)]) := rfl

/-! Constants from `tplink_tapo_cloud/const.py`.  Braces in the sensor
name templates are written with hexadecimal escapes. -/

def DOMAIN : String := "tplink_tapo_cloud"

def MANUFACTURER : String := "TP-Link"

def TAPOCLOUD_URL : String := "http://tapo.tplinkcloud.com/tapo_web"

def COORDINATOR_DATA_KEY_NAME : String := "device_nickname"

def COORDINATOR_DATA_KEY_DEVICEINFO : String := "device_info_result"

def COORDINATOR_DATA_KEY_ENERGY : String := "energy_usage_result"

def SENSOR_NAME_ENERGY_TODAY : String := "\x7b\x7d:Energy today"

def SENSOR_NAME_POWER : String := "\x7b\x7d:Power consumption"

/-- The four device-library operations a polling cycle can dispatch to the
executor (`self._p1xx.handshake`, `.login`, `.getDeviceInfo`,
`.getEnergyUsage`). -/
inductive Op where
  | handshake
  | login
  | getDeviceInfo
  | getEnergyUsage
deriving DecidableEq, Repr

/-- One cycle's behaviour of the device session object `self._p1xx`: the
outcome each operation would produce if invoked during this cycle.  An
`.error` outcome covers network and protocol errors as well as the
whole-cycle timeout expiring while that operation is in flight. -/
structure DeviceSession where
  handshake : Except PyErr Unit
  login : Except PyErr Unit
  getDeviceInfo : Except PyErr PyVal
  getEnergyUsage : Except PyErr PyVal

/-- Whether the session object would raise on the given operation. -/
def opRaises (dev : DeviceSession) : Op → Bool
  | .handshake => dev.handshake.isOk = false
  | .login => dev.login.isOk = false
  | .getDeviceInfo => dev.getDeviceInfo.isOk = false
  | .getEnergyUsage => dev.getEnergyUsage.isOk = false

/-- The coordinator state the cycle reads and writes: the `_connected`
flag and the published data dict `self.data` (the cached snapshot;
`\x7b\x7d` plays the role of "no snapshot"). -/
structure CoordState where
  connected : Bool
  data : List (String × PyVal)

/-- The exception `_async_update_data` raises on any failure, chaining the
original error (`raise UpdateFailed from err`). -/
structure UpdateFailed where
  cause : PyErr
deriving DecidableEq, Repr

/-- Lines 88–92 of `tapo_coordinator.py`: extract
`device_info["result"]["nickname"]`, base64-decode it, decode the bytes as
UTF-8, and store the nickname and the `"result"` mapping under the two
status keys (in insertion order). -/
def buildStatusData (device_info : PyVal) : Except PyErr (List (String × PyVal)) := do
  let result ← pyIndex device_info "result"
  let raw ← pyIndex result "nickname"
  let nickbytes ← b64decode raw
  let nickname ← utf8Decode nickbytes
  pure [(COORDINATOR_DATA_KEY_NAME, .str nickname),
        (COORDINATOR_DATA_KEY_DEVICEINFO, result)]

/-- Lines 102–103 of `tapo_coordinator.py`: `json.loads` the energy
payload and store its `"result"` field. -/
def buildEnergyEntry (payload : PyVal) : Except PyErr (String × PyVal) := do
  let parsed ← jsonLoads payload
  let result ← pyIndex parsed "result"
  pure (COORDINATOR_DATA_KEY_ENERGY, result)

/-- Lines 79–107 of `tapo_coordinator.py`: the part of the cycle body that
runs once the session is connected — query device info, build the status
entries, and (only when `self._p1xx` is a `PyP110.P110`, i.e. the device
is metering-capable) query and parse energy usage.  Returns the trace of
device operations started, together with the assembled data or the first
error raised. -/
def statusAndEnergy (isP110 : Bool) (dev : DeviceSession) (pre : List Op) :
    List Op × Except PyErr (List (String × PyVal)) :=
  match dev.getDeviceInfo with
  | .error e => (pre ++ [Op.getDeviceInfo], .error e)
  | .ok device_info =>
    match buildStatusData device_info with
    | .error e => (pre ++ [Op.getDeviceInfo], .error e)
    | .ok data0 =>
      if isP110 then
        match dev.getEnergyUsage with
        | .error e => (pre ++ [Op.getDeviceInfo, Op.getEnergyUsage], .error e)
        | .ok payload =>
          match buildEnergyEntry payload with
          | .error e => (pre ++ [Op.getDeviceInfo, Op.getEnergyUsage], .error e)
          | .ok entry =>
            (pre ++ [Op.getDeviceInfo, Op.getEnergyUsage], .ok (data0 ++ [entry]))
      else (pre ++ [Op.getDeviceInfo], .ok data0)

/-- Lines 62–107 of `tapo_coordinator.py`: the whole `try` body.  When
`self._connected` is false the cycle first performs handshake and login
(either failing aborts the cycle); then it proceeds with status and
energy. -/
def tryBody (isP110 : Bool) (dev : DeviceSession) (connected : Bool) :
    List Op × Except PyErr (List (String × PyVal)) :=
  if connected then statusAndEnergy isP110 dev []
  else
    match dev.handshake with
    | .error e => ([Op.handshake], .error e)
    | .ok _ =>
      match dev.login with
      | .error e => ([Op.handshake, Op.login], .error e)
      | .ok _ => statusAndEnergy isP110 dev [Op.handshake, Op.login]

/-- Outcome of one polling cycle: the trace of device operations started,
the coordinator state after the cycle, and what `_async_update_data`
returned (the new data dict) or raised (`UpdateFailed`). -/
structure CycleResult where
  trace : List Op
  state : CoordState
  result : Except UpdateFailed (List (String × PyVal))

/-- One polling cycle: `_async_update_data` together with the snapshot
replacement its caller performs.  On success the returned dict becomes
`self.data` and `_connected` is true (set at line 77 when a handshake ran,
unchanged otherwise).  On any exception the handler at lines 111–119 sets
`_connected` to false, wipes `self.data` to the empty dict, and raises
`UpdateFailed` chaining the error. -/
def runCycle (isP110 : Bool) (dev : DeviceSession) (st : CoordState) : CycleResult :=
  match tryBody isP110 dev st.connected with
  | (tr, .ok d) => ⟨tr, ⟨true, d⟩, .ok d⟩
  | (tr, .error e) => ⟨tr, ⟨false, []⟩, .error ⟨e⟩⟩

/-- Coordinator state at construction (`self._connected = False`, no data
published yet). -/
def initialState : CoordState := ⟨false, []⟩

/-- Python subscription `self.data[k]` on the coordinator's data dict:
`KeyError` when the key is absent. -/
def dataIndex (data : List (String × PyVal)) (k : String) : Except PyErr PyVal :=
  match lookupD k data with
  | some v => .ok v
  | Option.none => .error .keyError

/-- Replace the first `\x7b\x7d` placeholder of a template with the
argument, as `str.format` does on the single-placeholder sensor-name
templates of `const.py`. -/
def pyFormatAux : List Char → String → List Char
  | [], _ => []
  | [c], _ => [c]
  | c1 :: c2 :: rest, arg =>
    if c1 = '\x7b' ∧ c2 = '\x7d' then arg.data ++ rest
    else c1 :: pyFormatAux (c2 :: rest) arg

/-- `template.format(arg)` for the templates used by the sensors. -/
def pyFormat (template arg : String) : String :=
  String.mk (pyFormatAux template.data arg)

/-- Python `str()` of the values that can appear as a stored nickname
(always a str in practice; other scalars for totality). -/
def pyStr : PyVal → String
  | .str s => s
  | .int n => toString n
  | .bool b => if b then "True" else "False"
  | .none => "None"
  | _ => ""

/-- `TapoDataUpdateCoordinator.device_info`'s result: the `DeviceInfo`
dataclass assembled at `tapo_coordinator.py:140-148`. -/
structure DeviceInfoHA where
  identifiers : List (String × PyVal)
  default_name : PyVal
  default_manufacturer : String
  default_model : PyVal
  sw_version : PyVal
  via_device : String × String
  configuration_url : String

/-- `TapoDataUpdateCoordinator.device_info` (`tapo_coordinator.py:128-148`):
`None` when `self.data` is empty/falsy, otherwise a `DeviceInfo` built from
the cached name and the `device_id`, `fw_ver` and `model` fields of the
cached status mapping (subscription errors propagate as exceptions). -/
def Coordinator.device_info (uid : String) (data : List (String × PyVal)) :
    Except PyErr (Option DeviceInfoHA) :=
  if data.isEmpty then .ok Option.none
  else do
    let device_name ← dataIndex data COORDINATOR_DATA_KEY_NAME
    let di ← dataIndex data COORDINATOR_DATA_KEY_DEVICEINFO
    let device_unique_id ← pyIndex di "device_id"
    let device_fw_version ← pyIndex di "fw_ver"
    let device_model ← pyIndex di "model"
    pure (some ⟨[(DOMAIN, device_unique_id)], device_name, MANUFACTURER,
      device_model, device_fw_version, (DOMAIN, uid), TAPOCLOUD_URL⟩)

/-- `_TapoPlugSensorBase.available` (`sensor.py:94-101`): false iff the
energy key is not in the coordinator data, true otherwise. -/
def SensorBase.available (data : List (String × PyVal)) : Bool :=
  if (lookupD COORDINATOR_DATA_KEY_ENERGY data).isNone then false
  else true

/-- `_TapoPlugSensorBase._generate_name` (`sensor.py:103-110`): `None` when
the coordinator data is empty/falsy, otherwise the sensor-name template
formatted with the cached nickname. -/
def SensorBase.generate_name (data : List (String × PyVal)) (sensor_name : String) :
    Except PyErr (Option String) :=
  if data.isEmpty then .ok Option.none
  else do
    let device_name ← dataIndex data COORDINATOR_DATA_KEY_NAME
    pure (some (pyFormat sensor_name (pyStr device_name)))

/-- `_TapoPlugSensorBase._is_native_value_access_ok` (`sensor.py:112-128`):
data nonempty, sensor available, and energy key present. -/
def SensorBase.is_native_value_access_ok (data : List (String × PyVal)) : Bool :=
  if data.isEmpty then false
  else if SensorBase.available data = false then false
  else if (lookupD COORDINATOR_DATA_KEY_ENERGY data).isNone then false
  else true

/-- `TapoPlugEnergyTodaySensor.native_value` (`sensor.py:166-183`): `None`
unless the access checks pass, otherwise the `today_energy` field of the
cached energy mapping, verbatim (no conversion). -/
def EnergyToday.native_value (data : List (String × PyVal)) :
    Except PyErr (Option PyVal) :=
  if SensorBase.is_native_value_access_ok data then do
    let ev ← dataIndex data COORDINATOR_DATA_KEY_ENERGY
    let v ← pyIndex ev "today_energy"
    pure (some v)
  else .ok Option.none

/-- Python true division `x / 1000.000` of a number (`sensor.py:234`);
floats are modelled as exact rationals, and a Python `bool` divides as its
integer value. -/
def pyDiv1000 : PyVal → Except PyErr ℚ
  | .int n => .ok ((n : ℚ) / 1000)
  | .float q => .ok (q / 1000)
  | .bool b => .ok ((if b then 1 else 0) / 1000)
  | _ => .error .typeError

/-- `TapoPlugCurrentPowerConsumptionSensor.native_value`
(`sensor.py:222-240`): `None` unless the access checks pass, otherwise the
`current_power` field of the cached energy mapping divided by 1000. -/
def Power.native_value (data : List (String × PyVal)) :
    Except PyErr (Option PyVal) :=
  if SensorBase.is_native_value_access_ok data then do
    let ev ← dataIndex data COORDINATOR_DATA_KEY_ENERGY
    let milli_watt ← pyIndex ev "current_power"
    let q ← pyDiv1000 milli_watt
    pure (some (.float q))
  else .ok Option.none

/-- A status payload of the shape `getDeviceInfo` returns for a plug whose
nickname is the base64 encoding of "Plug". -/
def statusPayloadEx : PyVal :=
  .dict [("error_code", .int 0), ("result", .dict [
    ("device_id", .str "D1"), ("fw_ver", .str "1.2.3"),
    ("model", .str "P110"), ("type", .str "SMART.TAPOPLUG"),
    ("device_on", .bool true), ("nickname", .str "UGx1Zw==")])]

/-- An energy payload of the shape `getEnergyUsage` returns: JSON text
whose `result` member carries the day's energy and the instantaneous
power. -/
def energyPayloadEx : PyVal :=
  .str "\x7b\"error_code\": 0, \"result\": \x7b\"today_energy\": 120, \"current_power\": 2500\x7d\x7d"

/-- A device session on which every operation succeeds. -/
def devOK : DeviceSession :=
  ⟨.ok (), .ok (), .ok statusPayloadEx, .ok energyPayloadEx⟩

example :
    (runCycle true devOK initialState).trace =
      [Op.handshake, Op.login, Op.getDeviceInfo, Op.getEnergyUsage] := rfl

example :
    (runCycle true devOK initialState).state.data =
      [(COORDINATOR_DATA_KEY_NAME, .str "Plug"),
       (COORDINATOR_DATA_KEY_DEVICEINFO, .dict [
         ("device_id", .str "D1"), ("fw_ver", .str "1.2.3"),
         ("model", .str "P110"), ("type", .str "SMART.TAPOPLUG"),
         ("device_on", .bool true), ("nickname", .str "UGx1Zw==")]),
       (COORDINATOR_DATA_KEY_ENERGY, .dict [
         ("today_energy", .int 120), ("current_power", .int 2500)])] := rfl

example :
    (runCycle true devOK ((runCycle true devOK initialState).state)).trace =
      [Op.getDeviceInfo, Op.getEnergyUsage] := rfl

example : (runCycle false devOK initialState).state.connected = true := rfl

example :
    (runCycle false devOK initialState).state.data =
      [(COORDINATOR_DATA_KEY_NAME, .str "Plug"),
       (COORDINATOR_DATA_KEY_DEVICEINFO, .dict [
         ("device_id", .str "D1"), ("fw_ver", .str "1.2.3"),
         ("model", .str "P110"), ("type", .str "SMART.TAPOPLUG"),
         ("device_on", .bool true), ("nickname", .str "UGx1Zw==")])] := rfl

/-- Successful bind in the `Except` monad decomposes into two successes. -/
theorem except_bind_ok {α β : Type} (x : Except PyErr α) (f : α → Except PyErr β)
    (b : β) : (x >>= f) = .ok b ↔ ∃ a, x = .ok a ∧ f a = .ok b := by
  cases x <;> simp [Bind.bind, Except.bind]

/-- Characterization of a successful `buildStatusData`: the status payload
has a `result` mapping with a `nickname` field, the nickname base64- and
UTF-8-decodes, and the produced entries are the nickname and the `result`
mapping under the two status keys. -/
theorem buildStatusData_ok (info : PyVal) (data0 : List (String × PyVal))
    (h : buildStatusData info = .ok data0) :
    ∃ result raw bs s, pyIndex info "result" = .ok result ∧
      pyIndex result "nickname" = .ok raw ∧ b64decode raw = .ok bs ∧
      utf8Decode bs = .ok s ∧
      data0 = [(COORDINATOR_DATA_KEY_NAME, .str s),
               (COORDINATOR_DATA_KEY_DEVICEINFO, result)] := by
  unfold buildStatusData at h
  simp only [except_bind_ok, pure, Except.pure] at h
  rcases h with ⟨result, h1, raw, h2, bs, h3, s, h4, h5⟩
  exact ⟨result, raw, bs, s, h1, h2, h3, h4, (Except.ok.injEq _ _).mp h5.symm⟩

/-- Characterization of a successful `buildEnergyEntry`: the payload
`json.loads`-parses and the parse has a `result` field, which becomes the
stored energy entry. -/
theorem buildEnergyEntry_ok (payload : PyVal) (entry : String × PyVal)
    (h : buildEnergyEntry payload = .ok entry) :
    ∃ parsed r, jsonLoads payload = .ok parsed ∧ pyIndex parsed "result" = .ok r ∧
      entry = (COORDINATOR_DATA_KEY_ENERGY, r) := by
  unfold buildEnergyEntry at h
  simp only [except_bind_ok, pure, Except.pure] at h
  rcases h with ⟨parsed, h1, r, h2, h3⟩
  exact ⟨parsed, r, h1, h2, (Except.ok.injEq _ _).mp h3.symm⟩

/-- Characterization of a successful cycle body after the connection
phase: device info succeeded and produced the status entries, and for a
metering device the energy query succeeded and appended its entry. -/
theorem statusAndEnergy_ok (isP110 : Bool) (dev : DeviceSession) (pre : List Op)
    (tr : List Op) (d : List (String × PyVal))
    (h : statusAndEnergy isP110 dev pre = (tr, .ok d)) :
    ∃ info data0, dev.getDeviceInfo = .ok info ∧ buildStatusData info = .ok data0 ∧
      ((isP110 = false ∧ d = data0 ∧ tr = pre ++ [Op.getDeviceInfo]) ∨
       (isP110 = true ∧ ∃ payload entry, dev.getEnergyUsage = .ok payload ∧
         buildEnergyEntry payload = .ok entry ∧ d = data0 ++ [entry] ∧
         tr = pre ++ [Op.getDeviceInfo, Op.getEnergyUsage])) := by
  unfold statusAndEnergy at h
  split at h
  next e heq => simp at h
  next info heq =>
    split at h
    next e2 heq2 => simp at h
    next data0 heq2 =>
      split at h
      next hP =>
        split at h
        next e3 heq3 => simp at h
        next payload heq3 =>
          split at h
          next e4 heq4 => simp at h
          next entry heq4 =>
            simp only [Prod.mk.injEq, Except.ok.injEq] at h
            exact ⟨info, data0, heq, heq2, Or.inr ⟨hP, payload, entry, heq3, heq4,
              h.2.symm, h.1.symm⟩⟩
      next hP =>
        simp only [Prod.mk.injEq, Except.ok.injEq] at h
        exact ⟨info, data0, heq, heq2, Or.inl ⟨by simpa using hP, h.2.symm, h.1.symm⟩⟩

/-- The trace of a cycle is the trace of its `try` body (the exception
handler starts no further device operation). -/
theorem runCycle_trace (isP110 : Bool) (dev : DeviceSession) (st : CoordState) :
    (runCycle isP110 dev st).trace = (tryBody isP110 dev st.connected).1 := by
  unfold runCycle
  split
  next tr d heq => rw [heq]
  next tr e heq => rw [heq]

/-- The canonical order of device operations within one polling cycle. -/
def opOrder : List Op := [Op.handshake, Op.login, Op.getDeviceInfo, Op.getEnergyUsage]

/-- Claim C6: within any single cycle the device operations started form a
subsequence of handshake → authenticate → status → energy, and an
operation that raises is the last one started — no later operation begins
after an earlier step raised. -/
theorem cycle_operation_order (isP110 : Bool) (dev : DeviceSession) (st : CoordState) :
    (runCycle isP110 dev st).trace.Sublist opOrder ∧
    (∀ o ∈ (runCycle isP110 dev st).trace, opRaises dev o = true →
      (runCycle isP110 dev st).trace.getLast? = some o) := by
  rw [runCycle_trace]
  unfold tryBody statusAndEnergy
  repeat' split
  all_goals
    dsimp only
    refine ⟨by decide, ?_⟩
    intro o ho hr
    fin_cases ho <;>
      simp_all [opRaises, Except.isOk, Except.toBool]

/-- A successful `try` body started no operation that raises: every
operation in the trace of a successful cycle body succeeded. -/
theorem tryBody_ok_no_raise (isP110 : Bool) (dev : DeviceSession) (conn : Bool)
    (tr : List Op) (d : List (String × PyVal))
    (h : tryBody isP110 dev conn = (tr, .ok d)) :
    ∀ o ∈ tr, opRaises dev o = false := by
  unfold tryBody statusAndEnergy at h
  repeat' split at h
  all_goals simp at h
  all_goals
    obtain ⟨htr, -⟩ := h
    subst htr
    intro o ho
    fin_cases ho <;> simp_all [opRaises, Except.isOk, Except.toBool]

/-- Claim C1: if any device operation of a polling cycle raises (the
whole-cycle timeout expiring is the in-flight operation raising
`timeoutError`), then after the cycle the published data is wiped to the
empty dict, the `_connected` flag is false, and the cycle raises
`UpdateFailed` to its caller — for every prior coordinator state,
including one holding a non-empty snapshot. -/
theorem cycle_failure_clears (isP110 : Bool) (dev : DeviceSession) (st : CoordState)
    (o : Op) (hmem : o ∈ (runCycle isP110 dev st).trace)
    (hraise : opRaises dev o = true) :
    (runCycle isP110 dev st).state.connected = false ∧
    (runCycle isP110 dev st).state.data = [] ∧
    ∃ e, (runCycle isP110 dev st).result = .error (UpdateFailed.mk e) := by
  rcases htb : tryBody isP110 dev st.connected with ⟨tr, res⟩
  have htrace : (runCycle isP110 dev st).trace = tr := by
    rw [runCycle_trace, htb]
  cases res with
  | ok d =>
    have hno := tryBody_ok_no_raise isP110 dev st.connected tr d htb o
      (htrace ▸ hmem)
    rw [hraise] at hno
    exact absurd hno (by simp)
  | error e =>
    have hrun : runCycle isP110 dev st = ⟨tr, ⟨false, []⟩, .error ⟨e⟩⟩ := by
      unfold runCycle
      rw [htb]
    rw [hrun]
    exact ⟨rfl, rfl, e, rfl⟩

/-- A device session whose status query raises a communication error while
everything else would succeed. -/
def devFailStatus : DeviceSession :=
  ⟨.ok (), .ok (), .error .communicationError, .ok energyPayloadEx⟩

/-- Witness for C1 at a concrete input: a connected coordinator holding a
non-empty snapshot runs a cycle whose status query raises; the snapshot is
wiped, the flag cleared, and `UpdateFailed` raised. -/
theorem cycle_failure_clears_witness :
    (runCycle true devFailStatus
      ⟨true, [(COORDINATOR_DATA_KEY_NAME, .str "Plug")]⟩).state.connected = false ∧
    (runCycle true devFailStatus
      ⟨true, [(COORDINATOR_DATA_KEY_NAME, .str "Plug")]⟩).state.data = [] ∧
    ∃ e, (runCycle true devFailStatus
      ⟨true, [(COORDINATOR_DATA_KEY_NAME, .str "Plug")]⟩).result =
        .error (UpdateFailed.mk e) :=
  cycle_failure_clears true devFailStatus
    ⟨true, [(COORDINATOR_DATA_KEY_NAME, .str "Plug")]⟩ Op.getDeviceInfo
    (by decide) rfl

/-- Equation for a cycle whose body succeeds. -/
theorem runCycle_eq_ok (isP110 : Bool) (dev : DeviceSession) (st : CoordState)
    (tr : List Op) (d : List (String × PyVal))
    (h : tryBody isP110 dev st.connected = (tr, .ok d)) :
    runCycle isP110 dev st = ⟨tr, ⟨true, d⟩, .ok d⟩ := by
  unfold runCycle
  rw [h]

/-- Equation for a cycle whose body raises. -/
theorem runCycle_eq_error (isP110 : Bool) (dev : DeviceSession) (st : CoordState)
    (tr : List Op) (e : PyErr)
    (h : tryBody isP110 dev st.connected = (tr, .error e)) :
    runCycle isP110 dev st = ⟨tr, ⟨false, []⟩, .error ⟨e⟩⟩ := by
  unfold runCycle
  rw [h]

/-- A successful cycle result comes from a successful `try` body with the
same trace. -/
theorem runCycle_result_ok (isP110 : Bool) (dev : DeviceSession) (st : CoordState)
    (d : List (String × PyVal)) (h : (runCycle isP110 dev st).result = .ok d) :
    tryBody isP110 dev st.connected = ((runCycle isP110 dev st).trace, .ok d) := by
  rcases htb : tryBody isP110 dev st.connected with ⟨tr, res⟩
  cases res with
  | ok dd =>
    have heq := runCycle_eq_ok isP110 dev st tr dd htb
    rw [heq] at h
    have hd : dd = d := by simpa using h
    subst hd
    rw [heq]
  | error e =>
    have heq := runCycle_eq_error isP110 dev st tr e htb
    rw [heq] at h
    simp at h

/-- The trace of a successful `try` body: the connection phase (skipped
when already connected) followed by the status query and, possibly, the
energy query. -/
theorem tryBody_ok_trace (isP110 : Bool) (dev : DeviceSession) (conn : Bool)
    (tr : List Op) (d : List (String × PyVal))
    (h : tryBody isP110 dev conn = (tr, .ok d)) :
    tr = (if conn then [] else [Op.handshake, Op.login]) ++ [Op.getDeviceInfo] ∨
    tr = (if conn then [] else [Op.handshake, Op.login]) ++
      [Op.getDeviceInfo, Op.getEnergyUsage] := by
  unfold tryBody statusAndEnergy at h
  repeat' split at h
  all_goals simp at h
  all_goals obtain ⟨htr, -⟩ := h
  all_goals subst htr
  all_goals simp_all

/-- Claim C2 (amended): across two consecutive successful cycles with no
failure between them, handshake and login are each started at most once in
total — exactly once when the first cycle begins with `_connected` false
(as after construction or a failure) and zero times when it begins with
the flag already true; a successful cycle always ends with the flag true,
so the second cycle always skips both operations. -/
theorem session_reuse (isP110 : Bool) (dev1 dev2 : DeviceSession) (st : CoordState)
    (d1 d2 : List (String × PyVal))
    (h1 : (runCycle isP110 dev1 st).result = .ok d1)
    (h2 : (runCycle isP110 dev2 (runCycle isP110 dev1 st).state).result = .ok d2) :
    (((runCycle isP110 dev1 st).trace ++
      (runCycle isP110 dev2 (runCycle isP110 dev1 st).state).trace).count Op.handshake
        = if st.connected then 0 else 1) ∧
    (((runCycle isP110 dev1 st).trace ++
      (runCycle isP110 dev2 (runCycle isP110 dev1 st).state).trace).count Op.login
        = if st.connected then 0 else 1) ∧
    (runCycle isP110 dev1 st).state.connected = true ∧
    (runCycle isP110 dev2 (runCycle isP110 dev1 st).state).state.connected = true := by
  have ht1 := runCycle_result_ok isP110 dev1 st d1 h1
  have hst1 : (runCycle isP110 dev1 st).state = ⟨true, d1⟩ := by
    rw [runCycle_eq_ok isP110 dev1 st _ d1 ht1]
  have ht2 := runCycle_result_ok isP110 dev2 (runCycle isP110 dev1 st).state d2 h2
  rw [hst1] at ht2
  have hst2 : (runCycle isP110 dev2 (runCycle isP110 dev1 st).state).state = ⟨true, d2⟩ := by
    rw [runCycle_eq_ok isP110 dev2 (runCycle isP110 dev1 st).state _ d2 (by rw [hst1]; exact ht2)]
  have htr1 := tryBody_ok_trace isP110 dev1 st.connected _ d1 ht1
  have htr2 := tryBody_ok_trace isP110 dev2 true _ d2 ht2
  refine ⟨?_, ?_, by rw [hst1], by rw [hst2]⟩ <;>
    rw [hst1] <;>
    rcases htr1 with h | h <;> rcases htr2 with h' | h' <;>
    rw [h, h'] <;>
    cases hc : st.connected <;> decide

/-- The data dict a fully successful metering cycle over `devOK`
publishes. -/
def snapshotEx : List (String × PyVal) :=
  [(COORDINATOR_DATA_KEY_NAME, .str "Plug"),
   (COORDINATOR_DATA_KEY_DEVICEINFO, .dict [
     ("device_id", .str "D1"), ("fw_ver", .str "1.2.3"),
     ("model", .str "P110"), ("type", .str "SMART.TAPOPLUG"),
     ("device_on", .bool true), ("nickname", .str "UGx1Zw==")]),
   (COORDINATOR_DATA_KEY_ENERGY, .dict [
     ("today_energy", .int 120), ("current_power", .int 2500)])]

example : (runCycle true devOK initialState).result = .ok snapshotEx := rfl

/-- Counterexample to C2 as stated: cycles two and three of a coordinator
whose cycles all succeed are two consecutive successful cycles with no
failure between them, yet handshake and login are not invoked at all
across the pair (they ran in cycle one), not exactly once. -/
theorem session_reuse_counterexample :
    (runCycle true devOK ((runCycle true devOK initialState).state)).result =
      .ok snapshotEx ∧
    (runCycle true devOK ((runCycle true devOK
      ((runCycle true devOK initialState).state)).state)).result = .ok snapshotEx ∧
    ((runCycle true devOK ((runCycle true devOK initialState).state)).trace ++
     (runCycle true devOK ((runCycle true devOK
       ((runCycle true devOK initialState).state)).state)).trace).count Op.handshake
      = 0 ∧
    ((runCycle true devOK ((runCycle true devOK initialState).state)).trace ++
     (runCycle true devOK ((runCycle true devOK
       ((runCycle true devOK initialState).state)).state)).trace).count Op.login
      = 0 :=
  ⟨rfl, rfl, rfl, rfl⟩

/-- Witness for the amended C2 at a concrete input: two successful cycles
from the freshly constructed state perform handshake and login exactly
once in total. -/
theorem session_reuse_witness :
    (((runCycle true devOK initialState).trace ++
      (runCycle true devOK (runCycle true devOK initialState).state).trace).count
        Op.handshake = if initialState.connected then 0 else 1) ∧
    (((runCycle true devOK initialState).trace ++
      (runCycle true devOK (runCycle true devOK initialState).state).trace).count
        Op.login = if initialState.connected then 0 else 1) ∧
    (runCycle true devOK initialState).state.connected = true ∧
    (runCycle true devOK (runCycle true devOK initialState).state).state.connected
      = true :=
  session_reuse true devOK devOK initialState snapshotEx snapshotEx rfl rfl

/-- Witness for C6 at a concrete input: with a connection phase and a
failing status query, the trace is a subsequence of the canonical order
and ends at the raising operation. -/
theorem cycle_operation_order_witness :
    (runCycle true devFailStatus initialState).trace.Sublist opOrder ∧
    (runCycle true devFailStatus initialState).trace.getLast? =
      some Op.getDeviceInfo :=
  ⟨(cycle_operation_order true devFailStatus initialState).1,
   (cycle_operation_order true devFailStatus initialState).2 Op.getDeviceInfo
     (by decide) rfl⟩

example :
    lookupD COORDINATOR_DATA_KEY_DEVICEINFO
      [(COORDINATOR_DATA_KEY_NAME, PyVal.str "x"),
       (COORDINATOR_DATA_KEY_DEVICEINFO, PyVal.int 1)] = some (PyVal.int 1) := by
  simp [lookupD, COORDINATOR_DATA_KEY_NAME, COORDINATOR_DATA_KEY_DEVICEINFO]

/-- Data decomposition of a successful `try` body: the status entries,
plus — exactly for a metering-capable device — the energy entry. -/
theorem tryBody_ok_data (isP110 : Bool) (dev : DeviceSession) (conn : Bool)
    (tr : List Op) (d : List (String × PyVal))
    (h : tryBody isP110 dev conn = (tr, .ok d)) :
    ∃ info data0, dev.getDeviceInfo = .ok info ∧ buildStatusData info = .ok data0 ∧
      ((isP110 = false ∧ d = data0) ∨
       (isP110 = true ∧ ∃ payload entry, dev.getEnergyUsage = .ok payload ∧
         buildEnergyEntry payload = .ok entry ∧ d = data0 ++ [entry])) := by
  unfold tryBody at h
  split at h
  · obtain ⟨info, data0, h1, h2, hc⟩ := statusAndEnergy_ok _ _ _ _ _ h
    refine ⟨info, data0, h1, h2, ?_⟩
    rcases hc with ⟨a, b, -⟩ | ⟨a, p, en, b, c, dd, -⟩
    · exact Or.inl ⟨a, b⟩
    · exact Or.inr ⟨a, p, en, b, c, dd⟩
  · split at h
    next e heq => simp at h
    next u heq =>
      split at h
      next e2 heq2 => simp at h
      next u2 heq2 =>
        obtain ⟨info, data0, h1, h2, hc⟩ := statusAndEnergy_ok _ _ _ _ _ h
        refine ⟨info, data0, h1, h2, ?_⟩
        rcases hc with ⟨a, b, -⟩ | ⟨a, p, en, b, c, dd, -⟩
        · exact Or.inl ⟨a, b⟩
        · exact Or.inr ⟨a, p, en, b, c, dd⟩

/-- Counterexample to C3 as stated: after a successful cycle of a
non-metering-capable device, the cache holds a snapshot with identity
data, yet the availability accessor returns false, not true. -/
theorem availability_counterexample :
    (lookupD COORDINATOR_DATA_KEY_DEVICEINFO
      (runCycle false devOK initialState).state.data).isSome = true ∧
    SensorBase.available (runCycle false devOK initialState).state.data = false :=
  ⟨rfl, rfl⟩

/-- Claim C3 (amended): for a non-metering-capable device, a snapshot with
identity data in the cache does not make the availability accessor return
true — it returns false, because availability requires the energy key and
a non-metering snapshot never contains it. -/
theorem availability_non_metering (dev : DeviceSession) (st : CoordState)
    (d : List (String × PyVal)) (h : (runCycle false dev st).result = .ok d) :
    (lookupD COORDINATOR_DATA_KEY_DEVICEINFO d).isSome = true ∧
    SensorBase.available d = false := by
  have ht := runCycle_result_ok false dev st d h
  obtain ⟨info, data0, -, hbs, hcase⟩ := tryBody_ok_data false dev st.connected _ d ht
  obtain ⟨res, raw, bs, s, -, -, -, -, hdata⟩ := buildStatusData_ok info data0 hbs
  rcases hcase with ⟨-, hd⟩ | ⟨hP, -⟩
  · subst hd
    subst hdata
    constructor
    · simp [lookupD, COORDINATOR_DATA_KEY_NAME, COORDINATOR_DATA_KEY_DEVICEINFO]
    · simp [SensorBase.available, lookupD, COORDINATOR_DATA_KEY_NAME,
        COORDINATOR_DATA_KEY_DEVICEINFO, COORDINATOR_DATA_KEY_ENERGY]
  · exact absurd hP (by simp)

/-- Witness for the amended C3 at a concrete input: the successful
non-metering cycle over `devOK` caches identity data and reports the
sensor unavailable. -/
theorem availability_non_metering_witness :
    (lookupD COORDINATOR_DATA_KEY_DEVICEINFO
      (runCycle false devOK initialState).state.data).isSome = true ∧
    SensorBase.available (runCycle false devOK initialState).state.data = false :=
  availability_non_metering devOK initialState
    (runCycle false devOK initialState).state.data rfl

/-- Claim C4: for every cached data dict containing the energy mapping,
the energy-today sensor returns the `today_energy` field verbatim, and the
power sensor returns the `current_power` field divided by 1000. -/
theorem current_reading (data : List (String × PyVal)) (ev tv : PyVal) (m : Int)
    (he : lookupD COORDINATOR_DATA_KEY_ENERGY data = some ev)
    (ht : pyIndex ev "today_energy" = .ok tv)
    (hp : pyIndex ev "current_power" = .ok (.int m)) :
    EnergyToday.native_value data = .ok (some tv) ∧
    Power.native_value data = .ok (some (.float ((m : ℚ) / 1000))) := by
  have hne : data ≠ [] := by
    intro hh
    rw [hh] at he
    simp [lookupD] at he
  have hempty : data.isEmpty = false := by
    cases data
    · exact absurd rfl hne
    · rfl
  have hav : SensorBase.available data = true := by
    simp [SensorBase.available, he]
  have hok : SensorBase.is_native_value_access_ok data = true := by
    simp [SensorBase.is_native_value_access_ok, hempty, hav, he]
  have hdi : dataIndex data COORDINATOR_DATA_KEY_ENERGY = .ok ev := by
    simp [dataIndex, he]
  constructor
  · simp [EnergyToday.native_value, hok, hdi, ht, Bind.bind, Except.bind,
      pure, Except.pure]
  · simp [Power.native_value, hok, hdi, hp, pyDiv1000, Bind.bind, Except.bind,
      pure, Except.pure]

/-- A cached data dict whose energy mapping carries a raw instantaneous
power of 1500 milli-units. -/
def energyData1500 : List (String × PyVal) :=
  [(COORDINATOR_DATA_KEY_ENERGY, .dict [("today_energy", .int 120),
    ("current_power", .int 1500)])]

/-- Witness for C4 at a concrete input: `today_energy` 120 is returned
verbatim and a raw power reading of 1500 milli-units yields 1.5. -/
theorem current_reading_witness :
    EnergyToday.native_value energyData1500 = .ok (some (.int 120)) ∧
    Power.native_value energyData1500 = .ok (some (.float (1.5 : ℚ))) := by
  have h := current_reading energyData1500
    (.dict [("today_energy", .int 120), ("current_power", .int 1500)])
    (.int 120) 1500 rfl rfl rfl
  refine ⟨h.1, ?_⟩
  rw [h.2, show ((1500 : Int) : ℚ) / 1000 = 1.5 from by norm_num]

/-- A non-metering cycle body never starts the energy query, whatever the
outcome. -/
theorem tryBody_false_no_energy (dev : DeviceSession) (conn : Bool) :
    Op.getEnergyUsage ∉ (tryBody false dev conn).1 := by
  unfold tryBody statusAndEnergy
  repeat' split
  all_goals dsimp only
  all_goals first | decide | simp_all

/-- A successful metering cycle body started the energy query. -/
theorem tryBody_true_ok_energy_mem (dev : DeviceSession) (conn : Bool)
    (tr : List Op) (d : List (String × PyVal))
    (h : tryBody true dev conn = (tr, .ok d)) :
    Op.getEnergyUsage ∈ tr := by
  unfold tryBody statusAndEnergy at h
  repeat' split at h
  all_goals simp at h
  all_goals obtain ⟨htr, -⟩ := h
  all_goals subst htr
  all_goals first | decide | simp_all

/-- Claim C5: a coordinator over a non-metering-capable device never
starts the energy query and never stores an energy mapping, while a
metering-capable coordinator queries energy in every successful cycle and
stores the parsed payload's `result` field. -/
theorem capability_gating (dev : DeviceSession) (st : CoordState) :
    Op.getEnergyUsage ∉ (runCycle false dev st).trace ∧
    (∀ d, (runCycle false dev st).result = .ok d →
      lookupD COORDINATOR_DATA_KEY_ENERGY d = Option.none) ∧
    (∀ d, (runCycle true dev st).result = .ok d →
      Op.getEnergyUsage ∈ (runCycle true dev st).trace ∧
      ∃ payload parsed r, dev.getEnergyUsage = .ok payload ∧
        jsonLoads payload = .ok parsed ∧ pyIndex parsed "result" = .ok r ∧
        lookupD COORDINATOR_DATA_KEY_ENERGY d = some r) := by
  refine ⟨?_, ?_, ?_⟩
  · rw [runCycle_trace]
    exact tryBody_false_no_energy dev st.connected
  · intro d hd
    have ht := runCycle_result_ok false dev st d hd
    obtain ⟨info, data0, -, hbs, hcase⟩ := tryBody_ok_data false dev st.connected _ d ht
    obtain ⟨res, raw, bs, s, -, -, -, -, hdata⟩ := buildStatusData_ok info data0 hbs
    rcases hcase with ⟨-, hdd⟩ | ⟨hP, -⟩
    · subst hdd
      subst hdata
      simp [lookupD, COORDINATOR_DATA_KEY_NAME, COORDINATOR_DATA_KEY_DEVICEINFO,
        COORDINATOR_DATA_KEY_ENERGY]
    · exact absurd hP (by simp)
  · intro d hd
    have ht := runCycle_result_ok true dev st d hd
    constructor
    · exact tryBody_true_ok_energy_mem dev st.connected
        ((runCycle true dev st).trace) d ht
    · obtain ⟨info, data0, -, hbs, hcase⟩ := tryBody_ok_data true dev st.connected _ d ht
      obtain ⟨res, raw, bs, s, -, -, -, -, hdata⟩ := buildStatusData_ok info data0 hbs
      rcases hcase with ⟨hP, -⟩ | ⟨-, payload, entry, hgeu, hbe, hdd⟩
      · exact absurd hP (by simp)
      · obtain ⟨parsed, r, hjl, hpi, hentry⟩ := buildEnergyEntry_ok payload entry hbe
        subst hdd
        subst hdata
        subst hentry
        exact ⟨payload, parsed, r, hgeu, hjl, hpi, by
          simp [lookupD, COORDINATOR_DATA_KEY_NAME, COORDINATOR_DATA_KEY_DEVICEINFO,
            COORDINATOR_DATA_KEY_ENERGY]⟩

/-- Witness for C5 at concrete inputs: over the all-успех session the
non-metering cycle never starts the energy query nor stores the energy
key, and the metering cycle stores the parsed `result` mapping. -/
theorem capability_gating_witness :
    Op.getEnergyUsage ∉ (runCycle false devOK initialState).trace ∧
    lookupD COORDINATOR_DATA_KEY_ENERGY
      (runCycle false devOK initialState).state.data = Option.none ∧
    (Op.getEnergyUsage ∈ (runCycle true devOK initialState).trace ∧
     ∃ payload parsed r, devOK.getEnergyUsage = .ok payload ∧
       jsonLoads payload = .ok parsed ∧ pyIndex parsed "result" = .ok r ∧
       lookupD COORDINATOR_DATA_KEY_ENERGY snapshotEx = some r) :=
  ⟨(capability_gating devOK initialState).1,
   (capability_gating devOK initialState).2.1
     (runCycle false devOK initialState).state.data rfl,
   (capability_gating devOK initialState).2.2 snapshotEx rfl⟩

/-- Claim C7: in every successful cycle the stored nickname is obtained
from the `nickname` field of the status payload's `result` mapping by
base64-decoding it and decoding the bytes as UTF-8 text. -/
theorem nickname_decoding (isP110 : Bool) (dev : DeviceSession) (st : CoordState)
    (d : List (String × PyVal)) (h : (runCycle isP110 dev st).result = .ok d) :
    ∃ info res raw bs s, dev.getDeviceInfo = .ok info ∧
      pyIndex info "result" = .ok res ∧ pyIndex res "nickname" = .ok raw ∧
      b64decode raw = .ok bs ∧ utf8Decode bs = .ok s ∧
      lookupD COORDINATOR_DATA_KEY_NAME d = some (.str s) := by
  have ht := runCycle_result_ok isP110 dev st d h
  obtain ⟨info, data0, hgdi, hbs, hcase⟩ := tryBody_ok_data isP110 dev st.connected _ d ht
  obtain ⟨res, raw, bs, s, h1, h2, h3, h4, hdata⟩ := buildStatusData_ok info data0 hbs
  refine ⟨info, res, raw, bs, s, hgdi, h1, h2, h3, h4, ?_⟩
  rcases hcase with ⟨-, hdd⟩ | ⟨-, payload, entry, -, -, hdd⟩ <;>
    subst hdd <;> subst hdata <;> simp [lookupD]

/-- Witness for C7 at a concrete input: the successful metering cycle over
`devOK` stores "Plug", the base64-then-UTF-8 decoding of "UGx1Zw==". -/
theorem nickname_decoding_witness :
    ∃ info res raw bs s, devOK.getDeviceInfo = .ok info ∧
      pyIndex info "result" = .ok res ∧ pyIndex res "nickname" = .ok raw ∧
      b64decode raw = .ok bs ∧ utf8Decode bs = .ok s ∧
      lookupD COORDINATOR_DATA_KEY_NAME snapshotEx = some (.str s) :=
  nickname_decoding true devOK initialState snapshotEx rfl

/-- Claim C8: the friendly-name generator returns `None` when no data dict
exists, and otherwise the template formatted with the cached nickname. -/
theorem friendly_name (template : String) :
    SensorBase.generate_name [] template = .ok Option.none ∧
    ∀ data n, data ≠ [] →
      lookupD COORDINATOR_DATA_KEY_NAME data = some (.str n) →
      SensorBase.generate_name data template = .ok (some (pyFormat template n)) := by
  constructor
  · rfl
  · intro data n hne hlk
    have hempty : data.isEmpty = false := by
      cases data
      · exact absurd rfl hne
      · rfl
    simp [SensorBase.generate_name, hempty, dataIndex, hlk, pyStr,
      Bind.bind, Except.bind, pure, Except.pure]

/-- Witness for C8 at a concrete input: no data yields `None`, and the
snapshot with nickname "Plug" formats the template to "Plug:Power". -/
theorem friendly_name_witness :
    SensorBase.generate_name [] "\x7b\x7d:Power" = .ok Option.none ∧
    SensorBase.generate_name snapshotEx "\x7b\x7d:Power" = .ok (some "Plug:Power") := by
  refine ⟨(friendly_name "\x7b\x7d:Power").1, ?_⟩
  rw [(friendly_name "\x7b\x7d:Power").2 snapshotEx "Plug" (by simp [snapshotEx]) rfl]
  rfl

/-- Claim C9: with the coordinator's data dict empty (its state after
construction and after any failed cycle), every consumer-facing accessor
reports absence: `device_info` is `None`, availability is false, the
friendly-name generator returns `None`, and both sensors' `native_value`
is `None`. -/
theorem empty_data_accessors (uid template : String) :
    Coordinator.device_info uid [] = .ok Option.none ∧
    SensorBase.available [] = false ∧
    SensorBase.generate_name [] template = .ok Option.none ∧
    EnergyToday.native_value [] = .ok Option.none ∧
    Power.native_value [] = .ok Option.none :=
  ⟨rfl, rfl, rfl, rfl, rfl⟩

/-- A successful `jsonLoads` was applied to text. -/
theorem jsonLoads_ok_str (v parsed : PyVal) (h : jsonLoads v = .ok parsed) :
    ∃ s, v = .str s := by
  cases v
  all_goals first | exact ⟨_, rfl⟩ | simp [jsonLoads] at h

/-- Claim C10: for a metering-capable device, a successful cycle stores
the `result` field of the JSON-parse of the energy payload — so success
requires the payload to be JSON text containing a `result` field — and an
already-parsed dict payload makes the whole cycle fail, wiping the data
and the connection flag. -/
theorem energy_payload_json (dev : DeviceSession) (st : CoordState) :
    (∀ d, (runCycle true dev st).result = .ok d →
      ∃ s parsed r, dev.getEnergyUsage = .ok (.str s) ∧
        jsonLoads (.str s) = .ok parsed ∧ pyIndex parsed "result" = .ok r ∧
        lookupD COORDINATOR_DATA_KEY_ENERGY d = some r) ∧
    (∀ m, dev.getEnergyUsage = .ok (.dict m) →
      (runCycle true dev st).state.connected = false ∧
      (runCycle true dev st).state.data = [] ∧
      ∃ e, (runCycle true dev st).result = .error (UpdateFailed.mk e)) := by
  constructor
  · intro d hd
    have ht := runCycle_result_ok true dev st d hd
    obtain ⟨info, data0, -, hbs, hcase⟩ := tryBody_ok_data true dev st.connected _ d ht
    obtain ⟨res, raw, bs, s, -, -, -, -, hdata⟩ := buildStatusData_ok info data0 hbs
    rcases hcase with ⟨hP, -⟩ | ⟨-, payload, entry, hgeu, hbe, hdd⟩
    · exact absurd hP (by simp)
    · obtain ⟨parsed, r, hjl, hpi, hentry⟩ := buildEnergyEntry_ok payload entry hbe
      obtain ⟨ps, hps⟩ := jsonLoads_ok_str payload parsed hjl
      subst hps
      subst hdd
      subst hdata
      subst hentry
      exact ⟨ps, parsed, r, hgeu, hjl, hpi, by
        simp [lookupD, COORDINATOR_DATA_KEY_NAME, COORDINATOR_DATA_KEY_DEVICEINFO,
          COORDINATOR_DATA_KEY_ENERGY]⟩
  · intro m hm
    rcases htb : tryBody true dev st.connected with ⟨tr, res⟩
    cases res with
    | error e =>
      have heq := runCycle_eq_error true dev st tr e htb
      rw [heq]
      exact ⟨rfl, rfl, e, rfl⟩
    | ok d =>
      obtain ⟨info, data0, -, -, hcase⟩ := tryBody_ok_data true dev st.connected tr d htb
      rcases hcase with ⟨hP, -⟩ | ⟨-, payload, entry, hgeu, hbe, -⟩
      · exact absurd hP (by simp)
      · rw [hm] at hgeu
        obtain hpd : payload = .dict m := by
          have := hgeu
          simp at this
          exact this.symm
        subst hpd
        obtain ⟨parsed, r, hjl, -, -⟩ := buildEnergyEntry_ok _ entry hbe
        simp [jsonLoads] at hjl

/-- A device session whose energy payload is an already-parsed dict
instead of JSON text. -/
def devDictEnergy : DeviceSession :=
  ⟨.ok (), .ok (), .ok statusPayloadEx, .ok (.dict [("result", .dict [])])⟩

/-- Witness for C10 at concrete inputs: the JSON-text payload of `devOK`
stores its parsed `result`, and the dict payload of `devDictEnergy` makes
the cycle fail with cleared state. -/
theorem energy_payload_json_witness :
    (∃ s parsed r, devOK.getEnergyUsage = .ok (.str s) ∧
      jsonLoads (.str s) = .ok parsed ∧ pyIndex parsed "result" = .ok r ∧
      lookupD COORDINATOR_DATA_KEY_ENERGY snapshotEx = some r) ∧
    ((runCycle true devDictEnergy initialState).state.connected = false ∧
     (runCycle true devDictEnergy initialState).state.data = [] ∧
     ∃ e, (runCycle true devDictEnergy initialState).result =
       .error (UpdateFailed.mk e)) :=
  ⟨(energy_payload_json devOK initialState).1 snapshotEx rfl,
   (energy_payload_json devDictEnergy initialState).2 [("result", .dict [])] rfl⟩
